import Mathlib

/-
Verification development for the transcribe-app backend (job lifecycle,
worker pipeline and artifact writer).  The Python sources are embedded
shallowly: machine floats become exact rationals, database records become
plain structures, and the effect of each worker routine is captured as a
pure function from its inputs (store contents, filesystem facts, backend
results) to its outputs (updated record, raised exception, written files).

Python attribute access on the status enumeration is embedded as a lookup
by member name, because the worker module `backend/workers/tasks.py`
refers to enum members (`running`, `error`) that the declared enumeration
in `backend/db/models.py` does not define; such a lookup raises
AttributeError at run time, and the embedding keeps that behaviour.
-/

namespace Transcribe

/-- Job status enumeration, from `backend/db/models.py` (class JobStatus):
members `pending`, `processing`, `finished`, `failed`. -/
inductive JobStatus where
  | pending
  | processing
  | finished
  | failed
deriving DecidableEq, Repr

/-- Python attribute lookup of a member of `JobStatus` by name.  Returns
`none` exactly when the access would raise AttributeError. -/
def jobStatusOfName (name : String) : Option JobStatus :=
  if name = "pending" then some JobStatus.pending
  else if name = "processing" then some JobStatus.processing
  else if name = "finished" then some JobStatus.finished
  else if name = "failed" then some JobStatus.failed
  else none

/-- The columns of `TranscriptionJob` (backend/db/models.py) that the worker
code interacts with.  The declared model has no `input_path`, `model_name`,
`dialect_mapping`, `error_message` or `dialect_text` attribute; reads of
those names raise AttributeError and are embedded as such where they occur. -/
structure JobRecord where
  status : JobStatus
  error : Option String := none
  text : Option String := none
  outputTxtPath : Option String := none
  outputSrtPath : Option String := none
  outputVttPath : Option String := none
  outputJsonlPath : Option String := none
deriving DecidableEq, Repr

/-- A transcription segment, from `backend/asr/types.py` (dataclass Segment).
The source field `end` is named `stop` here because `end` is a Lean keyword;
floats are embedded as rationals.  The `words` list is omitted (never read
by the code under verification). -/
structure Segment where
  start : ℚ
  stop : ℚ
  text : String
  confidence : ℚ := 0
  speaker : Option String := none
  language : Option String := none
deriving DecidableEq, Repr

/-- Exceptions raised by the embedded code paths. -/
inductive PyError where
  | attributeError (attr : String)
  | fileNotFound (msg : String)
  | osError (msg : String)
deriving DecidableEq, Repr

/-- Python whitespace test used by `str.strip()` (ASCII range, which covers
every character the worker produces). -/
def isPySpace (c : Char) : Bool :=
  c = ' ' || c = '\t' || c = '\n' || c = '\r' || c = '\x0b' || c = '\x0c'

/-- Embedding of Python `str.strip()`. -/
def pyStrip (s : String) : String :=
  String.mk (((s.toList.dropWhile isPySpace).reverse.dropWhile isPySpace).reverse)

/-- Embedding of Python `str.lower()` (ASCII case folding, which is exact on
the literals the worker compares against). -/
def pyLower (s : String) : String :=
  String.mk (s.toList.map Char.toLower)

/-- Zero padding to two digits, Python format `02d`. -/
def pad2 (n : Nat) : String :=
  if n < 10 then "0" ++ toString n else toString n

/-- Zero padding to three digits. -/
def pad3 (n : Nat) : String :=
  if n < 10 then "00" ++ toString n
  else if n < 100 then "0" ++ toString n
  else toString n

/-- Left zero padding to width six, the padding part of Python format
`06.3f` applied to a number already rendered with three decimals. -/
def zfill6 (s : String) : String :=
  if s.length ≥ 6 then s else String.mk (List.replicate (6 - s.length) '0') ++ s

/-- Embedding of `.replace(".", ",")` from `_format_timestamp`; the pattern
is a single character, so the substring replace is a character map. -/
def replaceDotComma (s : String) : String :=
  String.mk (s.toList.map (fun c => if c = '.' then ',' else c))

/-- The arithmetic core of `_format_timestamp` (backend/workers/tasks.py,
lines 289 to 293): hours = int(seconds // 3600), minutes =
int((seconds % 3600) // 60), and the seconds field seconds % 60 rendered
by `06.3f`, i.e. rounded to the nearest millisecond.  Returns
(hours, minutes, milliseconds of the seconds field). -/
def timestampParts (seconds : ℚ) : Nat × Nat × Nat :=
  (Int.toNat ⌊seconds / 3600⌋,
    Int.toNat ⌊(seconds - 3600 * (⌊seconds / 3600⌋ : ℤ)) / 60⌋,
    Int.toNat (round (1000 * (seconds - 60 * (⌊seconds / 60⌋ : ℤ)))))

/-- Rendering of the three fields as `HH:MM:SS,mmm`, from
`_format_timestamp`: the seconds field is formatted `06.3f` and the dot is
replaced by a comma. -/
def renderTimestamp : Nat × Nat × Nat → String
  | (hours, minutes, ms) =>
    pad2 hours ++ ":" ++ pad2 minutes ++ ":" ++
      replaceDotComma (zfill6 (toString (ms / 1000) ++ "." ++ pad3 (ms % 1000)))

/-- Embedding of `_format_timestamp` (backend/workers/tasks.py). -/
def formatTimestamp (seconds : ℚ) : String :=
  renderTimestamp (timestampParts seconds)

/-- Reading the rendered `HH:MM:SS,mmm` string back into seconds: the
inverse direction of the round trip property in the specification. -/
def parseTimestamp : Nat × Nat × Nat → ℚ
  | (hours, minutes, ms) => hours * 3600 + minutes * 60 + (ms : ℚ) / 1000

/-- Speaker prefix of an SRT or VTT block, from `_to_srt`: the Python
conditional expression is on the truthiness of `segment.speaker`, so both
a missing and an empty speaker give the empty prefix. -/
def speakerMark : Option String → String
  | none => ""
  | some sp => if sp = "" then "" else sp ++ ": "

/-- The `lines` list built by the loop of `_to_srt`
(backend/workers/tasks.py, lines 296 to 306), with 1-based indices. -/
def srtLines : Nat → List Segment → List String
  | _, [] => []
  | i, seg :: rest =>
    toString i ::
      (formatTimestamp seg.start ++ " --> " ++ formatTimestamp seg.stop) ::
      (speakerMark seg.speaker ++ seg.text) ::
      "" :: srtLines (i + 1) rest

/-- Embedding of `_to_srt`: join the block lines with newlines and strip
the result. -/
def toSrt (segments : List Segment) : String :=
  pyStrip (String.intercalate "\n" (srtLines 1 segments))

/-- The placeholder stems that `_transcribe` rejects when falling back to
`result.text` (backend/workers/tasks.py, line 169). -/
def placeholderStems : List String := ["audio.", "audio", "file", "sound"]

/-- The sentinel substituted for a degenerate transcript
(backend/workers/tasks.py, line 172). -/
def sentinelText : String := "(no speech detected or ASR backend returned no segments)"

/-- The plain text construction of `_transcribe` (backend/workers/tasks.py,
lines 157 to 174): join the stripped non-empty segment texts; if that is
empty, fall back to the stripped result text only when it is non-empty, at
least eight characters long, and not one of the placeholder stems after
lowercasing; otherwise substitute the sentinel. -/
def buildPlainText (segments : List Segment) (resultText : String) : String :=
  let segmentTexts := (segments.map (fun s => pyStrip s.text)).filter (fun t => t ≠ "")
  let joined := pyStrip (String.intercalate "\n" segmentTexts)
  let candidate := pyStrip resultText
  if joined = "" then
    if candidate ≠ "" ∧ candidate.length ≥ 8 ∧ placeholderStems.contains (pyLower candidate) = false
    then candidate
    else sentinelText
  else joined

/-- The content written by `_write_segments` (backend/workers/tasks.py,
lines 237 to 250): one serialized line per segment, each followed by a
newline.  The JSON encoder is external (the json module) and is therefore a
parameter; zero segments give an empty file for every encoder. -/
def writeSegmentsContent (jsonLine : Segment → String) (segments : List Segment) : String :=
  String.join (segments.map (fun s => jsonLine s ++ "\n"))

/-- The four artifact formats of the pipeline. -/
inductive Format where
  | txt
  | jsonl
  | srt
  | vtt
deriving DecidableEq, Repr

/-- The order in which `_transcribe` writes the artifact files
(backend/workers/tasks.py: transcript.txt at line 178, segments.jsonl at
line 182, transcript.srt at line 185, transcript.vtt at line 189). -/
def artifactWriteOrder : List Format := [Format.txt, Format.jsonl, Format.srt, Format.vtt]

/-- Sequentially attempt the writes in the given order; whether a given
write succeeds is a parameter of the model (a `write_text` call may raise
OSError).  No write is guarded in the source, so the first failure raises
and the remaining formats are never attempted.  Returns the list of
attempted formats and the error, if any. -/
def attemptWrites (writeOk : Format → Bool) : List Format → List Format × Option PyError
  | [] => ([], none)
  | f :: rest =>
    if writeOk f then
      match attemptWrites writeOk rest with
      | (attempted, err) => (f :: attempted, err)
    else ([f], some (PyError.osError "write failed"))

/-- The value returned by the engine call in `_transcribe`
(`TranscriptionResult` in backend/asr/engine.py, reduced to the fields the
worker reads). -/
structure EngineResult where
  text : String
  segments : List Segment
  dialectMappedText : Option String := none
deriving DecidableEq, Repr

/-- The dictionary returned by `_transcribe` (backend/workers/tasks.py,
lines 192 to 199). -/
structure ResultPayload where
  text : String
  dialectText : Option String
  txtPath : String
  srtPath : String
  vttPath : String
  jsonlPath : String
deriving DecidableEq, Repr

/-- Embedding of `_transcribe` (backend/workers/tasks.py, lines 137 to 199).
The filesystem is abstracted to the two facts the routine depends on:
whether the input file exists, and whether each artifact write succeeds.
Audio conversion and the sidecar copy delegate to external tools (the Audio
Preparer of the specification) and are modelled as succeeding.  Returns the
payload or the raised exception, together with the formats whose write was
attempted. -/
def transcribeStep (inputPath : String) (inputExists : Bool) (writeOk : Format → Bool)
    (result : EngineResult) (jobDir : String) :
    Except PyError ResultPayload × List Format :=
  if inputExists = false then
    (Except.error (PyError.fileNotFound ("Audio file not found: " ++ inputPath)), [])
  else
    let plainText := buildPlainText result.segments result.text
    match attemptWrites writeOk artifactWriteOrder with
    | (attempted, some e) => (Except.error e, attempted)
    | (attempted, none) =>
      (Except.ok
        { text := plainText
          dialectText := result.dialectMappedText
          txtPath := jobDir ++ "/transcript.txt"
          srtPath := jobDir ++ "/transcript.srt"
          vttPath := jobDir ++ "/transcript.vtt"
          jsonlPath := jobDir ++ "/segments.jsonl" }, attempted)

/-- Embedding of `_mark_job_finished` (backend/workers/tasks.py, lines 253
to 274).  `fileRead` is the result of the fallback read of the transcript
file (`none` models the OSError branch, which keeps the value as is).  The
assignments to `job.dialect_text` and `job.error_message` target attribute
names the declared model does not map to columns, so they persist nothing:
in particular the declared `error` column is left unchanged. -/
def markJobFinished (job? : Option JobRecord) (payload : ResultPayload)
    (fileRead : Option String) : Option JobRecord :=
  match job? with
  | none => none
  | some job =>
    let textValue : String :=
      if pyStrip payload.text = "" ∧ payload.txtPath ≠ "" then
        match fileRead with
        | some content => content
        | none => payload.text
      else payload.text
    some { job with
      status := JobStatus.finished
      text := some textValue
      outputTxtPath := some payload.txtPath
      outputSrtPath := some payload.srtPath
      outputVttPath := some payload.vttPath
      outputJsonlPath := some payload.jsonlPath }

/-- Embedding of `_mark_job_error` (backend/workers/tasks.py, lines 277 to
286).  The assignment `job.status = JobStatus.error` looks up the member
named `error`, which the declared enumeration does not define, so the
routine raises AttributeError before assigning anything. -/
def markJobError (job? : Option JobRecord) (message : String) :
    Except PyError (Option JobRecord) :=
  match job? with
  | none => Except.ok none
  | some job =>
    match jobStatusOfName "error" with
    | none => Except.error (PyError.attributeError "error")
    | some st => Except.ok (some { job with status := st })

/-- Retry budget of the Celery task `transcribe_audio`
(backend/workers/tasks.py, line 63: max_retries=5). -/
def transcribeAudioMaxRetries : Nat := 5

/-- Fixed delay between retries of `transcribe_audio`
(backend/workers/tasks.py, line 64: default_retry_delay=1, in seconds). -/
def transcribeAudioRetryDelaySeconds : Nat := 1

/-- Outcome of one `_acquire_job` call. -/
inductive AcquireOutcome where
  | notFoundReturn
  | retrySignal
  | raised (e : PyError)
deriving DecidableEq, Repr

/-- Embedding of `_acquire_job` (backend/workers/tasks.py, lines 98 to 134)
against the declared data model.  The pair returned is the stored record
after the call and the outcome.  When the record is absent: with a bound
task and retries remaining, `task.retry()` raises the Celery Retry signal
(redelivery after the fixed delay); with the budget exhausted,
MaxRetriesExceededError is caught and the task returns None (the abandon
branch); without a task it logs and returns None.  When the record is
present, line 124 evaluates `JobStatus.running`; the declared enumeration
has no member of that name, so AttributeError is raised before anything is
assigned or committed.  Were the member defined (the inner branch), the
status would be committed unconditionally and the payload construction at
line 131 would then raise AttributeError on `job.input_path`, a column the
declared model does not define; either way no payload can be produced, so
the pipeline tail (`_transcribe`, `_mark_job_finished`, `_mark_job_error`)
is unreachable from this entry point. -/
def acquireJob (job? : Option JobRecord) (hasTask : Bool) (retriesUsed : Nat) :
    Option JobRecord × AcquireOutcome :=
  match job? with
  | none =>
    if hasTask then
      if retriesUsed < transcribeAudioMaxRetries then (none, AcquireOutcome.retrySignal)
      else (none, AcquireOutcome.notFoundReturn)
    else (none, AcquireOutcome.notFoundReturn)
  | some job =>
    match jobStatusOfName "running" with
    | none => (some job, AcquireOutcome.raised (PyError.attributeError "running"))
    | some st =>
      (some { job with status := st },
        AcquireOutcome.raised (PyError.attributeError "input_path"))

/-- The observable outcome of one `_run_transcription` call. -/
inductive RunOutcome where
  | invalidJobId
  | abandoned
  | retryScheduled
  | uncaught (e : PyError)
deriving DecidableEq, Repr

/-- Embedding of `_run_transcription` (backend/workers/tasks.py, lines 71
to 96): an unparsable job id logs and returns; otherwise the acquire step
runs, and its exceptions propagate uncaught because the call at line 79 is
outside the try block (only `_transcribe` is guarded). -/
def runTranscription (validId : Bool) (job? : Option JobRecord) (hasTask : Bool)
    (retriesUsed : Nat) : Option JobRecord × RunOutcome :=
  if validId = false then (job?, RunOutcome.invalidJobId)
  else
    match acquireJob job? hasTask retriesUsed with
    | (store, AcquireOutcome.notFoundReturn) => (store, RunOutcome.abandoned)
    | (store, AcquireOutcome.retrySignal) => (store, RunOutcome.retryScheduled)
    | (store, AcquireOutcome.raised e) => (store, RunOutcome.uncaught e)

/-- The observable outcome of one `enqueue_transcription` call. -/
inductive EnqueueOutcome where
  | queued
  | enqueueRaised
  | ranSync (store : Option JobRecord) (outcome : RunOutcome)
deriving DecidableEq, Repr

/-- Embedding of `enqueue_transcription` (backend/workers/tasks.py, lines
47 to 58): with a Celery application the task is queued (re-raising on a
failed apply_async); without one the pipeline runs synchronously in the
calling process with task=None. -/
def enqueueTranscription (celeryAvailable : Bool) (applyAsyncOk : Bool)
    (validId : Bool) (job? : Option JobRecord) : EnqueueOutcome :=
  if celeryAvailable then
    if applyAsyncOk then EnqueueOutcome.queued else EnqueueOutcome.enqueueRaised
  else
    match runTranscription validId job? false 0 with
    | (store, outcome) => EnqueueOutcome.ranSync store outcome

/-- The options dataclass of the engine (backend/asr/engine.py,
TranscriptionOptions) with its defaults. -/
structure TranscriptionOptions where
  model_size : String := "small"
  language_hint : Option String := none
  enable_diarization : Bool := true
  enable_punct : Bool := true
  enable_itn : Bool := true
  enable_dialect_map : Bool := false
deriving DecidableEq, Repr

/-- The payload dictionary fields that `_transcribe` consults when it
builds the engine options (model_name and dialect_mapping). -/
structure WorkerPayload where
  modelName : String
  dialectMapping : Bool
deriving DecidableEq, Repr

/-- The options object constructed by `_transcribe`
(backend/workers/tasks.py, lines 151 to 154): only model_size and
enable_dialect_map come from the job payload; every other option keeps its
dataclass default. -/
def workerOptions (payload : WorkerPayload) : TranscriptionOptions :=
  { model_size := payload.modelName, enable_dialect_map := payload.dialectMapping }

/-- Embedding of `ASREngine._post_process_segment` (backend/asr/engine.py,
lines 236 to 246).  The text transformations and the language detector are
external capabilities (specification section 1) and are parameters; the
language is the segment language when truthy (Python `or`), otherwise the
detector applied to the original text with the options hint. -/
def postProcessSegment (itn norm punct : String → String → String)
    (detect : String → Option String → String)
    (options : TranscriptionOptions) (segment : Segment) : Segment :=
  let text0 := segment.text
  let language :=
    match segment.language with
    | some l => if l = "" then detect text0 options.language_hint else l
    | none => detect text0 options.language_hint
  let text1 := if options.enable_itn then itn text0 language else text0
  let text2 := norm text1 language
  let text3 := if options.enable_punct then punct text2 language else text2
  { segment with text := text3, language := some language }

/-- Embedding of the confidence adaptation in
`FasterWhisperBackend.transcribe` (backend/asr/engine.py, lines 162 to
168): confidence defaults to 0.0 when the backend reports no
average log probability, and is otherwise max(0, min(1, exp(score))).
The exponential runs on machine floats and is a parameter; the clamp is
what the property depends on. -/
def adaptConfidence (pyExp : ℚ → ℚ) (avgLogprob : Option ℚ) : ℚ :=
  match avgLogprob with
  | none => 0
  | some x => max 0 (min 1 (pyExp x))

/-- The edges of the state machine in specification section 4.1. -/
def allowedEdge : JobStatus → JobStatus → Bool
  | JobStatus.pending, JobStatus.processing => true
  | JobStatus.failed, JobStatus.processing => true
  | JobStatus.processing, JobStatus.finished => true
  | JobStatus.processing, JobStatus.failed => true
  | _, _ => false

/-- Evaluation of `timestampParts` on inputs given in units of a tenth of a
millisecond: all the concrete timestamps appearing in the claims have this
form, and over these inputs the floors and the rounding reduce to natural
division, which the kernel can compute. -/
theorem timestampParts_units (u : ℕ) :
    timestampParts ((u : ℚ) / 10000) =
      (u / 36000000, u % 36000000 / 600000, (u % 600000 + 5) / 10) := by
  have hf1 : ⌊((u : ℚ) / 10000) / 3600⌋ = ((u / 36000000 : ℕ) : ℤ) := by
    have heq : ((u : ℚ) / 10000) / 3600 = (u : ℚ) / ((36000000 : ℕ) : ℚ) := by
      push_cast; ring
    rw [heq, Rat.floor_natCast_div_natCast]
    exact_mod_cast rfl
  have hmod36 : ((u : ℚ) / 10000) - 3600 * (((u / 36000000 : ℕ) : ℤ) : ℚ) =
      ((u % 36000000 : ℕ) : ℚ) / 10000 := by
    have hcast : (u : ℚ) =
        36000000 * ((u / 36000000 : ℕ) : ℚ) + ((u % 36000000 : ℕ) : ℚ) := by
      exact_mod_cast (congrArg (Nat.cast : ℕ → ℚ) (Nat.div_add_mod u 36000000)).symm
    rw [Int.cast_natCast, hcast]
    ring
  have hf2 : ⌊(((u % 36000000 : ℕ) : ℚ) / 10000) / 60⌋ =
      ((u % 36000000 / 600000 : ℕ) : ℤ) := by
    have heq : (((u % 36000000 : ℕ) : ℚ) / 10000) / 60 =
        ((u % 36000000 : ℕ) : ℚ) / ((600000 : ℕ) : ℚ) := by
      push_cast; ring
    rw [heq, Rat.floor_natCast_div_natCast]
    exact_mod_cast rfl
  have hf3 : ⌊((u : ℚ) / 10000) / 60⌋ = ((u / 600000 : ℕ) : ℤ) := by
    have heq : ((u : ℚ) / 10000) / 60 = (u : ℚ) / ((600000 : ℕ) : ℚ) := by
      push_cast; ring
    rw [heq, Rat.floor_natCast_div_natCast]
    exact_mod_cast rfl
  have hmod60 : ((u : ℚ) / 10000) - 60 * (((u / 600000 : ℕ) : ℤ) : ℚ) =
      ((u % 600000 : ℕ) : ℚ) / 10000 := by
    have hcast : (u : ℚ) =
        600000 * ((u / 600000 : ℕ) : ℚ) + ((u % 600000 : ℕ) : ℚ) := by
      exact_mod_cast (congrArg (Nat.cast : ℕ → ℚ) (Nat.div_add_mod u 600000)).symm
    rw [Int.cast_natCast, hcast]
    ring
  have hround : round ((1000 : ℚ) * (((u % 600000 : ℕ) : ℚ) / 10000)) =
      (((u % 600000 + 5) / 10 : ℕ) : ℤ) := by
    rw [round_eq]
    have heq : (1000 : ℚ) * (((u % 600000 : ℕ) : ℚ) / 10000) + 1 / 2 =
        ((u % 600000 + 5 : ℕ) : ℚ) / ((10 : ℕ) : ℚ) := by
      push_cast
      ring
    rw [heq, Rat.floor_natCast_div_natCast]
    exact_mod_cast rfl
  unfold timestampParts
  rw [hf1, hmod36, hf2, hf3, hmod60, hround]
  simp only [Int.toNat_natCast]

/-- A pending record, as the producer creates it (status defaults to
pending in backend/db/models.py, line 59). -/
def samplePendingJob : JobRecord := { status := JobStatus.pending }

/-- A record that has already reached the terminal status. -/
def sampleFinishedJob : JobRecord := { status := JobStatus.finished }

/-- An engine result with no segments, as the engine produces for silent
audio (its flattened text is then empty as well). -/
def emptyEngineResult : EngineResult := { text := "", segments := [] }

/-- When every artifact write succeeds, the write loop attempts the whole
list and raises nothing. -/
theorem attemptWrites_all_ok (writeOk : Format → Bool) (h : ∀ f, writeOk f = true) :
    ∀ l : List Format, attemptWrites writeOk l = (l, none) := by
  intro l
  induction l with
  | nil => rfl
  | cons f rest ih => simp [attemptWrites, h f, ih]

/-- C9: for every raw score produced by the transcription backend
(including native log probability scales, handled via exponentiation and
clamping), the confidence value stored on the adapted segment lies in the
closed interval from 0 to 1.  Holds for every exponential function and
every optional raw score, because the adapter clamps with max and min and
defaults to 0. -/
theorem C9_confidence_clamped (pyExp : ℚ → ℚ) (avgLogprob : Option ℚ) :
    0 ≤ adaptConfidence pyExp avgLogprob ∧ adaptConfidence pyExp avgLogprob ≤ 1 := by
  cases avgLogprob with
  | none => exact ⟨le_refl 0, by norm_num [adaptConfidence]⟩
  | some x =>
    refine ⟨le_max_left 0 _, ?_⟩
    exact max_le (by norm_num) (min_le_left 1 _)

/-- C2: a job status only ever changes along the edges pending to
processing, failed to processing, processing to finished, processing to
failed; in particular a finished job is never moved to another status by a
process or reprocess invocation.  This holds degenerately: no
`_run_transcription` call ever commits a status change at all, because the
acquire step raises AttributeError on the undefined member
`JobStatus.running` before its commit (see C1). -/
theorem C2_status_changes_only_along_edges (validId : Bool) (job? : Option JobRecord)
    (hasTask : Bool) (retriesUsed : Nat) (job job2 : JobRecord)
    (hbefore : job? = some job)
    (hafter : (runTranscription validId job? hasTask retriesUsed).1 = some job2) :
    (job2.status = job.status ∨ allowedEdge job.status job2.status = true) ∧
      (job.status = JobStatus.finished → job2.status = JobStatus.finished) := by
  subst hbefore
  have hsame : (runTranscription validId (some job) hasTask retriesUsed).1 = some job := by
    cases validId <;> rfl
  rw [hsame] at hafter
  have : job = job2 := Option.some.inj hafter
  subst this
  exact ⟨Or.inl rfl, fun h => h⟩

/-- Witness for C2 at a concrete input: a finished record, a valid id, a
bound task, and a fresh retry counter. -/
theorem C2_status_changes_only_along_edges_witness :
    (sampleFinishedJob.status = sampleFinishedJob.status ∨
      allowedEdge sampleFinishedJob.status sampleFinishedJob.status = true) ∧
      (sampleFinishedJob.status = JobStatus.finished →
        sampleFinishedJob.status = JobStatus.finished) :=
  C2_status_changes_only_along_edges true (some sampleFinishedJob) true 0
    sampleFinishedJob sampleFinishedJob rfl rfl

/-- C1: the retry discipline of the acquire step matches the claim for an
absent record (Retry signal while the budget of max_retries=5 with a one
second fixed delay lasts, abandonment by returning None afterwards), but on
a present record the code does not transition the status to processing and
commit: evaluating `JobStatus.running` raises AttributeError, the exception
escapes `_run_transcription`, and the stored record is unchanged. -/
theorem C1_acquire_eval :
    acquireJob (some samplePendingJob) true 0 =
      (some samplePendingJob, AcquireOutcome.raised (PyError.attributeError "running")) ∧
    runTranscription true (some samplePendingJob) true 0 =
      (some samplePendingJob, RunOutcome.uncaught (PyError.attributeError "running")) ∧
    samplePendingJob.status = JobStatus.pending ∧
    acquireJob none true 0 = (none, AcquireOutcome.retrySignal) ∧
    acquireJob none true transcribeAudioMaxRetries = (none, AcquireOutcome.notFoundReturn) ∧
    acquireJob none false 0 = (none, AcquireOutcome.notFoundReturn) ∧
    transcribeAudioMaxRetries = 5 ∧
    transcribeAudioRetryDelaySeconds = 1 := by
  refine ⟨rfl, rfl, rfl, rfl, ?_, rfl, rfl, rfl⟩
  rfl

/-- C3: for a job whose input file is missing, `_transcribe` would raise
FileNotFoundError with a descriptive message before creating the job
directory or writing any artifact, and the error is not retried; but the
pipeline never reaches that check (the acquire step raises AttributeError
first, leaving the record pending), and even in isolation
`_mark_job_error` cannot set any failed status because it evaluates the
undefined member `JobStatus.error`. -/
theorem C3_missing_input_eval :
    transcribeStep "/uploads/a.wav" false (fun _ => true) emptyEngineResult "/jobs/j1" =
      (Except.error (PyError.fileNotFound "Audio file not found: /uploads/a.wav"), []) ∧
    markJobError (some samplePendingJob) "Audio file not found: /uploads/a.wav" =
      Except.error (PyError.attributeError "error") ∧
    runTranscription true (some samplePendingJob) true 0 =
      (some samplePendingJob, RunOutcome.uncaught (PyError.attributeError "running")) ∧
    samplePendingJob.status ≠ JobStatus.failed ∧
    samplePendingJob.error = none := by
  refine ⟨rfl, rfl, rfl, ?_, rfl⟩
  decide

/-- C10: with no Celery application, `enqueue_transcription` queues nothing
and runs the pipeline synchronously, but the call raises (AttributeError
from the acquire step escapes it) and returns with the job still pending,
not in a terminal state. -/
theorem C10_sync_fallback_eval :
    enqueueTranscription false true true (some samplePendingJob) =
      EnqueueOutcome.ranSync (some samplePendingJob)
        (RunOutcome.uncaught (PyError.attributeError "running")) ∧
    samplePendingJob.status ≠ JobStatus.finished ∧
    samplePendingJob.status ≠ JobStatus.failed := by
  refine ⟨rfl, ?_, ?_⟩ <;> decide

/-- C4 counterexample: when the transcript.srt write fails, the pipeline
raises at once: transcript.vtt is never attempted (refuting that the other
three formats are still attempted), and the job fails even though both
mandatory formats txt and jsonl were written successfully (refuting that
only a mandatory-format failure fails the job). -/
theorem C4_partial_write_counterexample :
    attemptWrites (fun f => f != Format.srt) artifactWriteOrder =
      ([Format.txt, Format.jsonl, Format.srt], some (PyError.osError "write failed")) ∧
    Format.vtt ∉ (attemptWrites (fun f => f != Format.srt) artifactWriteOrder).1 ∧
    (transcribeStep "/uploads/a.wav" true (fun f => f != Format.srt) emptyEngineResult
        "/jobs/j1").1 = Except.error (PyError.osError "write failed") := by
  refine ⟨rfl, by decide, rfl⟩

/-- C4 amended: the artifact writes run sequentially in the order txt,
jsonl, srt, vtt with no per-format guard; the first failing write aborts
the step and fails the job whatever the format, so in particular a failure
of a mandatory format fails the job, and a job that completes the
transcribe step has attempted and succeeded at all four writes, txt and
jsonl included. -/
theorem C4_writes_amended (writeOk : Format → Bool) :
    ((∀ f, writeOk f = true) →
      attemptWrites writeOk artifactWriteOrder = (artifactWriteOrder, none)) ∧
    ((writeOk Format.txt = false ∨ writeOk Format.jsonl = false) →
      (attemptWrites writeOk artifactWriteOrder).2 ≠ none) ∧
    (∀ inputPath result jobDir p attempted,
      transcribeStep inputPath true writeOk result jobDir = (Except.ok p, attempted) →
        attempted = artifactWriteOrder ∧ writeOk Format.txt = true ∧
          writeOk Format.jsonl = true ∧ writeOk Format.srt = true ∧
          writeOk Format.vtt = true) := by
  refine ⟨fun h => attemptWrites_all_ok writeOk h _, ?_, ?_⟩
  · rintro (h | h)
    · simp [attemptWrites, artifactWriteOrder, h]
    · cases h1 : writeOk Format.txt <;>
        simp [attemptWrites, artifactWriteOrder, h1, h]
  · intro inputPath result jobDir p attempted hstep
    cases h1 : writeOk Format.txt <;> cases h2 : writeOk Format.jsonl <;>
      cases h3 : writeOk Format.srt <;> cases h4 : writeOk Format.vtt <;>
      simp_all [transcribeStep, attemptWrites, artifactWriteOrder]

/-- Witness for C4 amended: with every write succeeding, the whole order is
attempted and nothing is raised. -/
theorem C4_writes_amended_witness :
    attemptWrites (fun _ => true) artifactWriteOrder = (artifactWriteOrder, none) :=
  (C4_writes_amended (fun _ => true)).1 (fun _ => rfl)

/-- The two segments of the concrete SRT scenario in the claims. -/
def c5Segments : List Segment :=
  [{ start := 0, stop := 3 / 2, text := "hello" },
    { start := 3 / 2, stop := 3, text := "world" }]

/-- Evaluation of the SRT encoder on the two-segment scenario: the final
`.strip()` in `_to_srt` removes the trailing newline and the blank line
that terminated the last block. -/
theorem toSrt_c5 :
    toSrt c5Segments =
      "1\n00:00:00,000 --> 00:00:01,500\nhello\n\n2\n00:00:01,500 --> 00:00:03,000\nworld" := by
  have h0 : formatTimestamp (0 : ℚ) = "00:00:00,000" := by
    rw [show (0 : ℚ) = ((0 : ℕ) : ℚ) / 10000 by norm_num]
    simp only [formatTimestamp]
    rw [timestampParts_units]
    decide
  have h15 : formatTimestamp (3 / 2 : ℚ) = "00:00:01,500" := by
    rw [show (3 / 2 : ℚ) = ((15000 : ℕ) : ℚ) / 10000 by norm_num]
    simp only [formatTimestamp]
    rw [timestampParts_units]
    decide
  have h3 : formatTimestamp (3 : ℚ) = "00:00:03,000" := by
    rw [show (3 : ℚ) = ((30000 : ℕ) : ℚ) / 10000 by norm_num]
    simp only [formatTimestamp]
    rw [timestampParts_units]
    decide
  simp only [toSrt, c5Segments, srtLines, speakerMark]
  rw [h0, h15, h3]
  decide

/-- C5 counterexample: the SRT encoder does not produce the claimed exact
text; the claimed text carries a terminating blank line and trailing
newline after the last block, which the final `.strip()` removes. -/
theorem C5_srt_counterexample :
    toSrt c5Segments ≠
      "1\n00:00:00,000 --> 00:00:01,500\nhello\n\n2\n00:00:01,500 --> 00:00:03,000\nworld\n" := by
  rw [toSrt_c5]
  decide

/-- C5 amended: for the two-segment scenario the SRT encoder produces
1-indexed blocks in segment order with HH:MM:SS,mmm timestamps and no
speaker prefix, with a blank line between consecutive blocks but no
terminating blank line or trailing newline after the final block. -/
theorem C5_srt_amended :
    toSrt c5Segments =
      "1\n00:00:00,000 --> 00:00:01,500\nhello\n\n2\n00:00:01,500 --> 00:00:03,000\nworld" :=
  toSrt_c5

/-- On zero segments the plain text construction reduces to the candidate
test on the stripped result text. -/
theorem buildPlainText_nil (resultText : String) :
    buildPlainText [] resultText =
      (if pyStrip resultText ≠ "" ∧ (pyStrip resultText).length ≥ 8 ∧
          placeholderStems.contains (pyLower (pyStrip resultText)) = false
        then pyStrip resultText else sentinelText) := rfl

/-- C7 counterexample: with zero segments (and the empty flattened text the
engine then produces) the stored text is the parenthesized sentinel of the
source, not the claimed sentinel string "no speech detected". -/
theorem C7_sentinel_counterexample :
    buildPlainText [] "" = sentinelText ∧
    buildPlainText [] "" ≠ "no speech detected" ∧
    sentinelText ≠ "no speech detected" := by
  refine ⟨rfl, ?_, ?_⟩ <;> decide

/-- C7 amended: when there are zero segments and the result text is
degenerate in the sense of the source (empty after stripping, or shorter
than eight characters, or one of the placeholder stems after lowercasing),
the stored text is the sentinel "(no speech detected or ASR backend
returned no segments)", segments.jsonl is written as an empty file, the
transcribe step succeeds, and finalizing its payload marks the job
finished. -/
theorem C7_degenerate_text_amended (resultText : String) (jsonLine : Segment → String)
    (writeOk : Format → Bool) (job : JobRecord) (inputPath jobDir : String)
    (hcand : pyStrip resultText = "" ∨ (pyStrip resultText).length < 8 ∨
      placeholderStems.contains (pyLower (pyStrip resultText)) = true)
    (hwrites : ∀ f, writeOk f = true) :
    buildPlainText [] resultText = sentinelText ∧
    writeSegmentsContent jsonLine [] = "" ∧
    (transcribeStep inputPath true writeOk { text := resultText, segments := [] } jobDir).1 =
      Except.ok
        { text := sentinelText
          dialectText := none
          txtPath := jobDir ++ "/transcript.txt"
          srtPath := jobDir ++ "/transcript.srt"
          vttPath := jobDir ++ "/transcript.vtt"
          jsonlPath := jobDir ++ "/segments.jsonl" } ∧
    Option.map JobRecord.status
      (markJobFinished (some job)
        { text := sentinelText
          dialectText := none
          txtPath := jobDir ++ "/transcript.txt"
          srtPath := jobDir ++ "/transcript.srt"
          vttPath := jobDir ++ "/transcript.vtt"
          jsonlPath := jobDir ++ "/segments.jsonl" }
        none) = some JobStatus.finished := by
  have hsent : buildPlainText [] resultText = sentinelText := by
    rw [buildPlainText_nil]
    have hneg : ¬ (pyStrip resultText ≠ "" ∧ (pyStrip resultText).length ≥ 8 ∧
        placeholderStems.contains (pyLower (pyStrip resultText)) = false) := by
      rintro ⟨hne, hlen, hcontains⟩
      rcases hcand with h | h | h
      · exact hne h
      · omega
      · rw [h] at hcontains
        exact absurd hcontains (by decide)
    rw [if_neg hneg]
  have hsentinelNonempty : pyStrip sentinelText ≠ "" := by decide
  refine ⟨hsent, rfl, ?_, ?_⟩
  · simp only [transcribeStep]
    rw [attemptWrites_all_ok writeOk hwrites]
    simp [hsent]
  · simp only [markJobFinished]
    rw [if_neg (fun hc => hsentinelNonempty hc.1)]
    rfl

/-- Witness for C7 amended: the empty result text with all writes
succeeding on a pending record. -/
theorem C7_degenerate_text_amended_witness :
    buildPlainText [] "" = sentinelText ∧
    writeSegmentsContent (fun _ => "") [] = "" ∧
    (transcribeStep "/uploads/a.wav" true (fun _ => true)
        { text := "", segments := [] } "/jobs/j1").1 =
      Except.ok
        { text := sentinelText
          dialectText := none
          txtPath := "/jobs/j1" ++ "/transcript.txt"
          srtPath := "/jobs/j1" ++ "/transcript.srt"
          vttPath := "/jobs/j1" ++ "/transcript.vtt"
          jsonlPath := "/jobs/j1" ++ "/segments.jsonl" } ∧
    Option.map JobRecord.status
      (markJobFinished (some samplePendingJob)
        { text := sentinelText
          dialectText := none
          txtPath := "/jobs/j1" ++ "/transcript.txt"
          srtPath := "/jobs/j1" ++ "/transcript.srt"
          vttPath := "/jobs/j1" ++ "/transcript.vtt"
          jsonlPath := "/jobs/j1" ++ "/segments.jsonl" }
        none) = some JobStatus.finished :=
  C7_degenerate_text_amended "" (fun _ => "") (fun _ => true) samplePendingJob
    "/uploads/a.wav" "/jobs/j1" (Or.inl (by decide)) (fun _ => rfl)

/-- The language resolution of `_post_process_segment`: the segment
language when truthy, otherwise the detector on the original segment text
with the options hint. -/
def resolvedLanguage (detect : String → Option String → String)
    (options : TranscriptionOptions) (segment : Segment) : String :=
  match segment.language with
  | some l => if l = "" then detect segment.text options.language_hint else l
  | none => detect segment.text options.language_hint

/-- C8 counterexample: with both toggleable steps disabled, the
normalization step still rewrites the text (there is no option that
disables it), and the worker constructs the engine options with the
dataclass defaults for enable_itn and enable_punct, so the toggles
submitted with the job never reach the engine. -/
theorem C8_postprocess_counterexample :
    (postProcessSegment (fun t _ => t ++ "I") (fun t _ => t ++ "N") (fun t _ => t ++ "P")
        (fun _ _ => "th")
        { enable_punct := false, enable_itn := false }
        { start := 0, stop := 1, text := "t" }).text = "tN" ∧
    "tN" ≠ "t" ∧
    (workerOptions { modelName := "small", dialectMapping := false }).enable_itn = true ∧
    (workerOptions { modelName := "small", dialectMapping := false }).enable_punct = true := by
  refine ⟨rfl, by decide, rfl, rfl⟩

/-- C8 amended: each segment first has its language resolved (detected from
the original text or taken from the hint), then inverse text normalization
(toggleable via enable_itn), then normalization (applied unconditionally),
then punctuation restoration (toggleable via enable_punct), in that fixed
order; the worker forwards only model_size and enable_dialect_map from the
job payload, leaving enable_itn, enable_punct and the language hint at
their defaults. -/
theorem C8_postprocess_amended (itn norm punct : String → String → String)
    (detect : String → Option String → String) (options : TranscriptionOptions)
    (segment : Segment) (payload : WorkerPayload) :
    (postProcessSegment itn norm punct detect options segment).language =
      some (resolvedLanguage detect options segment) ∧
    (postProcessSegment itn norm punct detect options segment).text =
      (fun t => if options.enable_punct then punct t (resolvedLanguage detect options segment) else t)
        (norm
          ((fun t => if options.enable_itn then itn t (resolvedLanguage detect options segment) else t)
            segment.text)
          (resolvedLanguage detect options segment)) ∧
    (workerOptions payload).enable_itn = true ∧
    (workerOptions payload).enable_punct = true ∧
    (workerOptions payload).language_hint = none := by
  exact ⟨rfl, rfl, rfl, rfl, rfl⟩

/-- C6 counterexample: at 59.9996 seconds the millisecond rounding reaches
the minute boundary and the formatter emits a seconds field of 60,000
without carrying into the minutes: the rendered string is 00:00:60,000,
refuting that the seconds field stays below 60 and that rounding carries
into minutes and hours.  (Reading the malformed string back still lands
within one millisecond of the input.) -/
theorem C6_seconds_field_counterexample :
    timestampParts (149999 / 2500 : ℚ) = (0, 0, 60000) ∧
    formatTimestamp (149999 / 2500 : ℚ) = "00:00:60,000" ∧
    ¬ (timestampParts (149999 / 2500 : ℚ)).2.2 < 60000 ∧
    parseTimestamp (timestampParts (149999 / 2500 : ℚ)) = 60 := by
  have hparts : timestampParts (149999 / 2500 : ℚ) = (0, 0, 60000) := by
    rw [show (149999 / 2500 : ℚ) = ((599996 : ℕ) : ℚ) / 10000 by norm_num,
      timestampParts_units]
  refine ⟨hparts, ?_, ?_, ?_⟩
  · simp only [formatTimestamp]
    rw [hparts]
    decide
  · rw [hparts]
    decide
  · rw [hparts]
    norm_num [parseTimestamp]

/-- C6 amended: for every non-negative rational number of seconds,
formatting with the shared timestamp routine and reading the rendered
fields back reproduces the value to within one millisecond (the rounding
error is at most half a millisecond); the hours and minutes fields are the
usual floors, but the seconds field does not always stay below 60: when the
millisecond rounding reaches a minute boundary it renders as 60,000 with no
carry (see the counterexample). -/
theorem C6_roundtrip_amended (s : ℚ) (hs : 0 ≤ s) :
    |parseTimestamp (timestampParts s) - s| ≤ 1 / 1000 := by
  have hh0 : (0 : ℤ) ≤ ⌊s / 3600⌋ := Int.floor_nonneg.mpr (by positivity)
  have hfloor3600 : ((⌊s / 3600⌋ : ℤ) : ℚ) ≤ s / 3600 := Int.floor_le _
  have hrem0 : (0 : ℚ) ≤ s - 3600 * ((⌊s / 3600⌋ : ℤ) : ℚ) := by linarith
  have hm0 : (0 : ℤ) ≤ ⌊(s - 3600 * ((⌊s / 3600⌋ : ℤ) : ℚ)) / 60⌋ :=
    Int.floor_nonneg.mpr (div_nonneg hrem0 (by norm_num))
  have hmeq : ⌊(s - 3600 * ((⌊s / 3600⌋ : ℤ) : ℚ)) / 60⌋ = ⌊s / 60⌋ - 60 * ⌊s / 3600⌋ := by
    have harg : (s - 3600 * ((⌊s / 3600⌋ : ℤ) : ℚ)) / 60 =
        s / 60 - ((60 * ⌊s / 3600⌋ : ℤ) : ℚ) := by
      push_cast
      ring
    rw [harg, Int.floor_sub_int]
  have hf60le : ((⌊s / 60⌋ : ℤ) : ℚ) ≤ s / 60 := Int.floor_le _
  have hr0 : (0 : ℚ) ≤ s - 60 * ((⌊s / 60⌋ : ℤ) : ℚ) := by linarith
  have hms0 : (0 : ℤ) ≤ round (1000 * (s - 60 * ((⌊s / 60⌋ : ℤ) : ℚ))) := by
    rw [round_eq]
    apply Int.floor_nonneg.mpr
    linarith
  have hm0' : (0 : ℤ) ≤ ⌊s / 60⌋ - 60 * ⌊s / 3600⌋ := hmeq ▸ hm0
  have c1 : (((⌊s / 3600⌋).toNat : ℕ) : ℚ) = ((⌊s / 3600⌋ : ℤ) : ℚ) := by
    exact_mod_cast congrArg (fun z : ℤ => (z : ℚ)) (Int.toNat_of_nonneg hh0)
  have c2 : (((⌊(s - 3600 * ((⌊s / 3600⌋ : ℤ) : ℚ)) / 60⌋).toNat : ℕ) : ℚ) =
      ((⌊s / 60⌋ : ℤ) : ℚ) - 60 * ((⌊s / 3600⌋ : ℤ) : ℚ) := by
    rw [hmeq]
    exact_mod_cast congrArg (fun z : ℤ => (z : ℚ)) (Int.toNat_of_nonneg hm0')
  have c3 : (((round (1000 * (s - 60 * ((⌊s / 60⌋ : ℤ) : ℚ)))).toNat : ℕ) : ℚ) =
      ((round (1000 * (s - 60 * ((⌊s / 60⌋ : ℤ) : ℚ))) : ℤ) : ℚ) := by
    exact_mod_cast congrArg (fun z : ℤ => (z : ℚ)) (Int.toNat_of_nonneg hms0)
  show |(((⌊s / 3600⌋).toNat : ℕ) : ℚ) * 3600 +
      (((⌊(s - 3600 * ((⌊s / 3600⌋ : ℤ) : ℚ)) / 60⌋).toNat : ℕ) : ℚ) * 60 +
      (((round (1000 * (s - 60 * ((⌊s / 60⌋ : ℤ) : ℚ)))).toNat : ℕ) : ℚ) / 1000 - s| ≤
    1 / 1000
  rw [c1, c2, c3]
  have key : |((round (1000 * (s - 60 * ((⌊s / 60⌋ : ℤ) : ℚ))) : ℤ) : ℚ) -
      1000 * (s - 60 * ((⌊s / 60⌋ : ℤ) : ℚ))| ≤ 1 / 2 := by
    rw [abs_sub_comm]
    exact abs_sub_round (1000 * (s - 60 * ((⌊s / 60⌋ : ℤ) : ℚ)))
  have harg2 : ((⌊s / 3600⌋ : ℤ) : ℚ) * 3600 +
      (((⌊s / 60⌋ : ℤ) : ℚ) - 60 * ((⌊s / 3600⌋ : ℤ) : ℚ)) * 60 +
      ((round (1000 * (s - 60 * ((⌊s / 60⌋ : ℤ) : ℚ))) : ℤ) : ℚ) / 1000 - s =
      (((round (1000 * (s - 60 * ((⌊s / 60⌋ : ℤ) : ℚ))) : ℤ) : ℚ) -
        1000 * (s - 60 * ((⌊s / 60⌋ : ℤ) : ℚ))) / 1000 := by
    ring
  rw [harg2, abs_div]
  rw [show |(1000 : ℚ)| = 1000 by norm_num]
  linarith

/-- Witness for C6 amended at 3661.5 seconds (one hour, one minute, one
and a half seconds). -/
theorem C6_roundtrip_amended_witness :
    (0 : ℚ) ≤ 36615 / 10 ∧
      |parseTimestamp (timestampParts (36615 / 10 : ℚ)) - 36615 / 10| ≤ 1 / 1000 :=
  ⟨by norm_num, C6_roundtrip_amended (36615 / 10) (by norm_num)⟩

end Transcribe
